import Mathlib

/-!
Shallow embedding of src/app.py (EPUB/PDF to text converter) and proofs
about its three conversion functions and its UI state updates.

External library calls (tempfile, ebooklib, BeautifulSoup, PyMuPDF,
pytesseract) are modelled by explicit environments: each fallible call is
an Except value chosen by the environment, and pure library outputs
(stripped HTML text, per-page extracted text, per-page OCR text, the TOC
list) are abstract data carried by the environment.  Python exceptions
become Except.error, the caught exception message being the carried
string.  The filesystem is a list of paths; Python float division in the
progress computation is modelled by exact rational division.
-/

namespace App

/-- ebooklib.ITEM_DOCUMENT constant (value 9 in ebooklib). -/
def ITEM_DOCUMENT : Nat := 9

/-- An item of an EPUB book: its ebooklib type tag and its raw HTML content. -/
structure EpubItem where
  itemType : Nat
  content : String
deriving DecidableEq, Repr

/-- An EPUB book as returned by epub.read_epub: its items in library iteration order. -/
structure EpubBook where
  items : List EpubItem
deriving DecidableEq, Repr

/-- Environment for one call of epub_to_text: the outcome of each fallible
library step.  ntf is tempfile.NamedTemporaryFile creation, wr is
tmp.write(file_content), readEpub is epub.read_epub together with the
BeautifulSoup processing of the items. -/
structure EpubEnv where
  ntf : Except String Unit
  wr : Except String Unit
  readEpub : Except String EpubBook

/-- The filesystem, as the list of paths that exist on disk. -/
abbrev FS := List String

/-- The loop body of epub_to_text: for each item of type ITEM_DOCUMENT,
append its HTML-stripped text (strip models soup.get_text()). -/
def collectDocs (strip : String → String) : List EpubItem → List String
  | [] => []
  | it :: rest =>
    if it.itemType == ITEM_DOCUMENT then strip it.content :: collectDocs strip rest
    else collectDocs strip rest

/-- epub_to_text from src/app.py.  tmpName is the fresh path chosen by
tempfile.NamedTemporaryFile.  Returns the string result together with the
filesystem after the function returns.  Control flow mirrors the source:
tmp_path starts as ""; the with-block creates the file on disk
(delete=False) and writes to it; tmp_path is assigned only after the
write; any exception is caught and stringified with the prefix
处理EPUB文件时出错; the finally block unlinks tmp_path only when tmp_path
is non-empty and the path exists. -/
def epub_to_text (strip : String → String) (env : EpubEnv) (tmpName : String)
    (fs : FS) : String × FS :=
  match env.ntf with
  | .error e =>
    -- NamedTemporaryFile raised: no file created, tmp_path = "" so the
    -- finally block does nothing.
    ("处理EPUB文件时出错: " ++ e, fs)
  | .ok _ =>
    -- file now exists on disk
    let fs1 := tmpName :: fs
    match env.wr with
    | .error e =>
      -- tmp.write raised inside the with-block: tmp_path is still "" so
      -- the finally block skips the unlink and the file stays on disk.
      ("处理EPUB文件时出错: " ++ e, fs1)
    | .ok _ =>
      -- tmp_path = tmp.name; the with-block closes the file (delete=False)
      match env.readEpub with
      | .error e => ("处理EPUB文件时出错: " ++ e, fs1.erase tmpName)
      | .ok book =>
        (String.intercalate "\n" (collectDocs strip book.items), fs1.erase tmpName)

/-- One TOC entry as yielded by doc.get_toc(): (level, title, page). -/
abbrev TocEntry := Nat × String × Int

/-- A PDF document as opened by fitz.open: its TOC and the per-page text
that page.get_text() yields, in page order. -/
structure PdfDoc where
  toc : List TocEntry
  pages : List String
deriving DecidableEq, Repr

/-- The two-space indent repeated k times, modelling the Python
expression of two spaces multiplied by (level - 1). -/
def indent (k : Nat) : String := String.join (List.replicate k "  ")

/-- The TOC accumulation loop of pdf_to_text:
toc_text += indent - title (页码 page) newline, entry by entry. -/
def tocLoopText (acc : String) : List TocEntry → String
  | [] => acc
  | (level, title, page) :: rest =>
    tocLoopText (acc ++ indent (level - 1) ++ "- " ++ title ++ " (页码 "
      ++ toString page ++ ")\n") rest

/-- The TOC text built by pdf_to_text: starts from 目录:, then either the
not-found sentinel (empty TOC) or one line per entry. -/
def pdfTocText (toc : List TocEntry) : String :=
  if toc.isEmpty then "目录:\n" ++ "未找到目录。\n" else tocLoopText "目录:\n" toc

/-- The page loop of pdf_to_text: full_text += page.get_text(). -/
def pagesLoop (acc : String) : List String → String
  | [] => acc
  | p :: rest => pagesLoop (acc ++ p) rest

/-- pdf_to_text from src/app.py.  The argument is the outcome of
fitz.open on the byte stream (together with the in-try processing of a
successfully opened document).  Returns (full_text, toc_text); on failure
returns the stringified exception with prefix 处理PDF文件时出错 and "". -/
def pdf_to_text (openDoc : Except String PdfDoc) : String × String :=
  match openDoc with
  | .error e => ("处理PDF文件时出错: " ++ e, "")
  | .ok doc =>
    let toc_text := pdfTocText doc.toc
    let full_text := pagesLoop "" doc.pages
    (full_text, toc_text)

/-- The TOC accumulation loop of pdf_ocr (duplicated in the source). -/
def tocLoopOcr (acc : String) : List TocEntry → String
  | [] => acc
  | (level, title, page) :: rest =>
    tocLoopOcr (acc ++ indent (level - 1) ++ "- " ++ title ++ " (页码 "
      ++ toString page ++ ")\n") rest

/-- The TOC text built by pdf_ocr (duplicated in the source). -/
def ocrTocText (toc : List TocEntry) : String :=
  if toc.isEmpty then "目录:\n" ++ "未找到目录。\n" else tocLoopOcr "目录:\n" toc

/-- Observable events of one pdf_ocr run: ocrPage i is the OCR work on
page index i (get_pixmap, Image.frombytes, image_to_string), report i q
is the call progress_bar.progress(q) made after page index i. -/
inductive OcrEvent where
  | ocrPage : Nat → OcrEvent
  | report : Nat → ℚ → OcrEvent
deriving DecidableEq, Repr

/-- Environment for one call of pdf_ocr: the outcome of fitz.open and,
per page index, the outcome of the OCR pipeline on that page. -/
structure OcrEnv where
  openDoc : Except String PdfDoc
  pageOcr : Nat → Except String String

/-- The page loop of pdf_ocr over the page indices: OCR the page, append
the delimiter header and the recognized text, then report progress
(i + 1) / n.  An OCR exception aborts the loop.  The event list records,
in order, every OCR action and every progress report. -/
def ocrGo (pageOcr : Nat → Except String String) (n : Nat) :
    List Nat → String → List OcrEvent → Except String String × List OcrEvent
  | [], acc, evs => (.ok acc, evs)
  | i :: rest, acc, evs =>
    match pageOcr i with
    | .error e => (.error e, evs ++ [.ocrPage i])
    | .ok t =>
      ocrGo pageOcr n rest
        (acc ++ "\n--- Page " ++ toString (i + 1) ++ " ---\n" ++ t)
        (evs ++ [.ocrPage i, .report i (((i : ℚ) + 1) / (n : ℚ))])

/-- pdf_ocr from src/app.py.  Returns ((full_text, toc_text), events);
the events are the observable OCR/progress actions in execution order.
On failure returns the stringified exception with prefix OCR处理PDF时出错
and "", keeping the events that happened before the exception. -/
def pdf_ocr (env : OcrEnv) : (String × String) × List OcrEvent :=
  match env.openDoc with
  | .error e => (("OCR处理PDF时出错: " ++ e, ""), [])
  | .ok doc =>
    let toc_text := ocrTocText doc.toc
    let n := doc.pages.length
    match ocrGo env.pageOcr n (List.range n) "" [] with
    | (.error e, evs) => (("OCR处理PDF时出错: " ++ e, ""), evs)
    | (.ok full_text, evs) => ((full_text, toc_text), evs)

/-- The progress values passed to the progress sink, in order. -/
def reports (evs : List OcrEvent) : List ℚ :=
  evs.filterMap fun ev =>
    match ev with
    | .report _ q => some q
    | _ => none

/-- The UI session state: the four st.session_state slots. -/
structure SessionState where
  processed_text : Option String
  file_name : Option String
  toc : Option String
  secondary_text : Option String
deriving DecidableEq, Repr

/-- The EPUB button branch of the UI: the four assignments to
st.session_state after epub_to_text returned result, in source order. -/
def epubBranch (result base : String) (s : SessionState) : SessionState :=
  let s := { s with processed_text := some result }
  let s := { s with file_name := some (base ++ "_epub.txt") }
  let s := { s with toc := none }
  { s with secondary_text := none }

/-- The PDF text-extraction button branch of the UI: the four assignments
after pdf_to_text returned (text, tocS), in source order. -/
def pdfTextBranch (text tocS base : String) (s : SessionState) : SessionState :=
  let s := { s with processed_text := some text }
  let s := { s with toc := some tocS }
  let s := { s with file_name := some (base ++ "_text.txt") }
  { s with secondary_text := none }

/-- The PDF OCR button branch of the UI: the assignments after pdf_ocr
returned (ocrText, tocS), in source order; when the checkbox is set the
secondary slot gets the pdf_to_text result, otherwise None. -/
def pdfOcrBranch (ocrText tocS base : String) (checkbox : Bool)
    (textOnly : String) (s : SessionState) : SessionState :=
  let s := { s with processed_text := some ocrText }
  let s := { s with toc := some tocS }
  let s := { s with file_name := some (base ++ "_ocr.txt") }
  if checkbox then { s with secondary_text := some textOnly }
  else { s with secondary_text := none }

/-- One rendered TOC line for entry (level, title, page). -/
def tocLine (ent : TocEntry) : String :=
  indent (ent.1 - 1) ++ "- " ++ ent.2.1 ++ " (页码 " ++ toString ent.2.2 ++ ")\n"

end App

namespace App

/-! Helper lemmas about the loops. -/

/-- Folding string append from an arbitrary accumulator. -/
theorem foldl_append_acc (l : List String) :
    ∀ a : String, List.foldl (· ++ ·) a l = a ++ List.foldl (· ++ ·) "" l := by
  induction l with
  | nil => intro a; exact (String.append_empty a).symm
  | cons p rest ih =>
    intro a
    simp only [List.foldl_cons]
    rw [String.empty_append, ih (a ++ p), ih p, String.append_assoc]

/-- String.join distributes over cons. -/
theorem string_join_cons (p : String) (rest : List String) :
    String.join (p :: rest) = p ++ String.join rest := by
  simp only [String.join, List.foldl_cons]
  rw [String.empty_append, foldl_append_acc]

/-- Closed form of the pdf_to_text TOC loop. -/
theorem tocLoopText_eq (l : List TocEntry) :
    ∀ acc : String, tocLoopText acc l = acc ++ String.join (l.map tocLine) := by
  induction l with
  | nil => intro acc; simp [tocLoopText, String.join]
  | cons ent rest ih =>
    intro acc
    obtain ⟨level, title, page⟩ := ent
    simp only [tocLoopText, ih, tocLine, List.map_cons, string_join_cons]
    simp [String.append_assoc]

/-- The two duplicated TOC loops compute the same function. -/
theorem tocLoopOcr_eq (l : List TocEntry) :
    ∀ acc : String, tocLoopOcr acc l = tocLoopText acc l := by
  induction l with
  | nil => intro acc; rfl
  | cons ent rest ih =>
    intro acc
    obtain ⟨level, title, page⟩ := ent
    simp only [tocLoopOcr, tocLoopText, ih]

/-- The two duplicated TOC renderings compute the same function. -/
theorem ocrTocText_eq (toc : List TocEntry) : ocrTocText toc = pdfTocText toc := by
  unfold ocrTocText pdfTocText
  rw [tocLoopOcr_eq]

/-- Closed form of the document-item collection loop of epub_to_text. -/
theorem collectDocs_eq (strip : String → String) (items : List EpubItem) :
    collectDocs strip items
      = (items.filter fun it => it.itemType == ITEM_DOCUMENT).map
          fun it => strip it.content := by
  induction items with
  | nil => rfl
  | cons it rest ih =>
    by_cases h : it.itemType == ITEM_DOCUMENT
    · simp [collectDocs, List.filter_cons, h, ih]
    · simp [collectDocs, List.filter_cons, h, ih]

/-- Closed form of the per-page text concatenation loop of pdf_to_text. -/
theorem pagesLoop_eq (l : List String) :
    ∀ acc : String, pagesLoop acc l = acc ++ String.join l := by
  induction l with
  | nil => intro acc; simp [pagesLoop, String.join]
  | cons p rest ih =>
    intro acc
    simp only [pagesLoop, ih, string_join_cons]
    rw [String.append_assoc]

end App

namespace App

/-- Closed form of the OCR page loop when every page's OCR succeeds:
the accumulated text gains one delimited block per page and the event
list gains, per page in order, the OCR action followed by the progress
report (i + 1) / n. -/
theorem ocrGo_ok (pageOcr : Nat → Except String String) (n : Nat)
    (f : Nat → String) (h : ∀ i, pageOcr i = .ok (f i)) (l : List Nat) :
    ∀ (acc : String) (evs : List OcrEvent),
      ocrGo pageOcr n l acc evs
        = (.ok (acc ++ String.join (l.map fun i =>
            "\n--- Page " ++ toString (i + 1) ++ " ---\n" ++ f i)),
           evs ++ l.flatMap fun i =>
             [.ocrPage i, .report i (((i : ℚ) + 1) / (n : ℚ))]) := by
  induction l with
  | nil =>
    intro acc evs
    simp [ocrGo, String.join]
  | cons i rest ih =>
    intro acc evs
    simp only [ocrGo, h i, List.map_cons, string_join_cons, List.flatMap_cons, ih]
    simp [String.append_assoc]

/-- The progress values of the canonical all-success event list. -/
theorem reports_flatMap (g : Nat → ℚ) (l : List Nat) :
    reports (l.flatMap fun i => [OcrEvent.ocrPage i, OcrEvent.report i (g i)])
      = l.map g := by
  induction l with
  | nil => rfl
  | cons i rest ih =>
    simp only [List.flatMap_cons, reports, List.filterMap_append] at *
    simp [ih]

/-- Length of the canonical all-success event list. -/
theorem trace_length (g : Nat → ℚ) (l : List Nat) :
    (l.flatMap fun i => [OcrEvent.ocrPage i, OcrEvent.report i (g i)]).length
      = 2 * l.length := by
  induction l with
  | nil => rfl
  | cons i rest ih =>
    simp [List.flatMap_cons, ih]
    omega

/-- Positions in the canonical all-success event list: the OCR action on
page i sits at index 2i and its progress report at index 2i + 1. -/
theorem trace_get (g : Nat → ℚ) :
    ∀ n i, i < n →
      (((List.range n).flatMap fun j =>
          [OcrEvent.ocrPage j, OcrEvent.report j (g j)]).get? (2 * i)
        = some (OcrEvent.ocrPage i))
      ∧ (((List.range n).flatMap fun j =>
          [OcrEvent.ocrPage j, OcrEvent.report j (g j)]).get? (2 * i + 1)
        = some (OcrEvent.report i (g i))) := by
  intro n
  induction n with
  | zero => intro i h; exact absurd h (Nat.not_lt_zero i)
  | succ m ih =>
    intro i h
    rw [List.range_succ, List.flatMap_append]
    have hlen : ((List.range m).flatMap fun j =>
        [OcrEvent.ocrPage j, OcrEvent.report j (g j)]).length = 2 * m := by
      rw [trace_length, List.length_range]
    by_cases hi : i < m
    · rw [List.get?_append (by omega), List.get?_append (by omega)]
      exact ih i hi
    · have hi' : i = m := by omega
      subst hi'
      rw [List.get?_append_right (by omega), List.get?_append_right (by omega),
        hlen]
      constructor
      · simp
      · simp

end App

namespace App

/-- pdf_ocr on a successfully opened document when every page's OCR
succeeds: full text, TOC text and the canonical event list. -/
theorem pdf_ocr_ok (env : OcrEnv) (doc : PdfDoc) (f : Nat → String)
    (hopen : env.openDoc = .ok doc) (hocr : ∀ i, env.pageOcr i = .ok (f i)) :
    pdf_ocr env
      = ((String.join ((List.range doc.pages.length).map fun i =>
            "\n--- Page " ++ toString (i + 1) ++ " ---\n" ++ f i),
          ocrTocText doc.toc),
         (List.range doc.pages.length).flatMap fun i =>
           [OcrEvent.ocrPage i,
            OcrEvent.report i (((i : ℚ) + 1) / (doc.pages.length : ℚ))]) := by
  have key := ocrGo_ok env.pageOcr doc.pages.length f hocr
      (List.range doc.pages.length) "" []
  unfold pdf_ocr
  rw [hopen]
  simp [key, String.empty_append]

/-- C1 (code bug): the claim that epub_to_text removes its temporary file
on every exit path fails on the code.  When tmp.write raises inside the
with-block, tmp_path is still "" because it is assigned only after the
write, so the finally block skips the unlink: at this input the temporary
file still exists on disk after the function returns, contradicting the
source's own cleanup comment. -/
theorem C1_tempfile_leak :
    (epub_to_text (fun s => s)
        ⟨.ok (), .error "No space left on device", .ok ⟨[]⟩⟩ "tmp0.epub" []).2
      = ["tmp0.epub"]
    ∧ "tmp0.epub" ∈ (epub_to_text (fun s => s)
        ⟨.ok (), .error "No space left on device", .ok ⟨[]⟩⟩ "tmp0.epub" []).2 :=
  ⟨rfl, by simp [epub_to_text]⟩

/-- C2: epub_to_text never propagates an exception: for every outcome of
the fallible library steps it returns a string, either the successful
joined document text or the single error message made of the fixed prefix
followed by the underlying exception's description. -/
theorem C2_no_raise (strip : String → String) (env : EpubEnv)
    (tmpName : String) (fs : FS) :
    (∃ book, env.ntf = .ok () ∧ env.wr = .ok () ∧ env.readEpub = .ok book ∧
      (epub_to_text strip env tmpName fs).1
        = String.intercalate "\n" (collectDocs strip book.items))
    ∨ ∃ e, (epub_to_text strip env tmpName fs).1 = "处理EPUB文件时出错: " ++ e := by
  obtain ⟨ntf, wr, rd⟩ := env
  cases ntf with
  | error e => exact Or.inr ⟨e, rfl⟩
  | ok u =>
    cases wr with
    | error e => exact Or.inr ⟨e, rfl⟩
    | ok v =>
      cases rd with
      | error e => exact Or.inr ⟨e, rfl⟩
      | ok book => exact Or.inl ⟨book, rfl, rfl, rfl, rfl⟩

/-- C3: on a byte stream that fitz.open rejects, pdf_to_text and pdf_ocr
both return a pair whose first component is the error message containing
the exception's description and whose TOC component is the empty string,
and pdf_ocr makes no OCR or progress action. -/
theorem C3_corrupt_error (e : String) (g : Nat → Except String String) :
    pdf_to_text (.error e) = ("处理PDF文件时出错: " ++ e, "")
    ∧ pdf_ocr ⟨.error e, g⟩ = (("OCR处理PDF时出错: " ++ e, ""), []) :=
  ⟨rfl, rfl⟩

/-- C4: for a successfully opened PDF the TOC text of pdf_to_text starts
with the 目录 header; with an empty TOC it is exactly the header followed
by the not-found sentinel; otherwise it is the header followed by one
line per entry, each line being (level - 1) two-space indents, a dash,
the title and the page number; the two concrete example lines render as
the claim states. -/
theorem C4_toc_format (openDoc : Except String PdfDoc) (doc : PdfDoc)
    (h : openDoc = .ok doc) :
    (∃ rest, (pdf_to_text openDoc).2 = "目录:\n" ++ rest)
    ∧ (doc.toc = [] → (pdf_to_text openDoc).2 = "目录:\n" ++ "未找到目录。\n")
    ∧ (doc.toc ≠ [] →
        (pdf_to_text openDoc).2 = "目录:\n" ++ String.join (doc.toc.map tocLine))
    ∧ tocLine (1, "Chapter 1", 5) = "- Chapter 1 (页码 5)\n"
    ∧ tocLine (2, "Chapter 1", 5) = "  " ++ tocLine (1, "Chapter 1", 5) := by
  subst h
  have h2 : (pdf_to_text (.ok doc)).2 = pdfTocText doc.toc := rfl
  refine ⟨?_, ?_, ?_, ?_, ?_⟩
  · rw [h2]
    unfold pdfTocText
    by_cases he : doc.toc.isEmpty
    · rw [if_pos he]
      exact ⟨"未找到目录。\n", rfl⟩
    · rw [if_neg he, tocLoopText_eq]
      exact ⟨_, rfl⟩
  · intro he
    rw [h2]
    unfold pdfTocText
    rw [if_pos (by simp [he])]
  · intro he
    rw [h2]
    unfold pdfTocText
    rw [if_neg (by simpa using he), tocLoopText_eq]
  · rfl
  · rfl

/-- C4 witness: a one-entry level-1 TOC at a concrete document. -/
theorem C4_toc_format_witness :
    (pdf_to_text (.ok ⟨[(1, "Chapter 1", 5)], []⟩)).2
      = "目录:\n- Chapter 1 (页码 5)\n" := by
  have h := C4_toc_format (.ok ⟨[(1, "Chapter 1", 5)], []⟩)
      ⟨[(1, "Chapter 1", 5)], []⟩ rfl
  rw [h.2.2.1 (by simp)]
  rfl

/-- C6: on the success path, epub_to_text returns exactly the
HTML-stripped texts of the document-type items, in library iteration
order, joined by single newlines; non-document items contribute
nothing. -/
theorem C6_epub_join (strip : String → String) (env : EpubEnv)
    (tmpName : String) (fs : FS) (book : EpubBook)
    (h1 : env.ntf = .ok ()) (h2 : env.wr = .ok ()) (h3 : env.readEpub = .ok book) :
    (epub_to_text strip env tmpName fs).1
      = String.intercalate "\n"
          ((book.items.filter fun it => it.itemType == ITEM_DOCUMENT).map
            fun it => strip it.content) := by
  unfold epub_to_text
  rw [h1, h2, h3]
  simp [collectDocs_eq]

/-- C6 witness: a three-item book whose middle item is a non-document. -/
theorem C6_epub_join_witness :
    (epub_to_text (fun s => s)
        ⟨.ok (), .ok (), .ok ⟨[⟨9, "A"⟩, ⟨1, "x"⟩, ⟨9, "B"⟩]⟩⟩ "t.epub" []).1
      = "A\nB" := by
  have h := C6_epub_join (fun s => s)
      ⟨.ok (), .ok (), .ok ⟨[⟨9, "A"⟩, ⟨1, "x"⟩, ⟨9, "B"⟩]⟩⟩ "t.epub" []
      ⟨[⟨9, "A"⟩, ⟨1, "x"⟩, ⟨9, "B"⟩]⟩ rfl rfl rfl
  rw [h]
  rfl

/-- C9: each of the three UI conversion branches rewrites all four
session-state slots, so the resulting state is a function of the
conversion outputs alone (independent of the previous state, hence no
partial overwrite), holding exactly one primary result and at most one
secondary result. -/
theorem C9_session_overwrite (r base text tocS ocrText textOnly : String)
    (checkbox : Bool) (s : SessionState) :
    epubBranch r base s
      = { processed_text := some r, file_name := some (base ++ "_epub.txt"),
          toc := none, secondary_text := none }
    ∧ pdfTextBranch text tocS base s
      = { processed_text := some text, file_name := some (base ++ "_text.txt"),
          toc := some tocS, secondary_text := none }
    ∧ pdfOcrBranch ocrText tocS base checkbox textOnly s
      = { processed_text := some ocrText, file_name := some (base ++ "_ocr.txt"),
          toc := some tocS,
          secondary_text := if checkbox then some textOnly else none } := by
  refine ⟨rfl, rfl, ?_⟩
  cases checkbox <;> rfl

end App

namespace App

/-- C5: when every page's OCR succeeds on an N-page document (N at least
one), the progress values reported to the sink are exactly
1/N, 2/N, ..., N/N in order, strictly increasing and ending at 1, and in
the event trace the OCR action on page index i sits at position 2i with
its progress report at position 2i + 1, so the next page's OCR never
precedes the previous page's report. -/
theorem C5_ocr_progress (env : OcrEnv) (doc : PdfDoc) (f : Nat → String)
    (hopen : env.openDoc = .ok doc) (hn : 1 ≤ doc.pages.length)
    (hocr : ∀ i, env.pageOcr i = .ok (f i)) :
    reports (pdf_ocr env).2
      = (List.range doc.pages.length).map
          (fun i : ℕ => ((i : ℚ) + 1) / (doc.pages.length : ℚ))
    ∧ List.Pairwise (· < ·) (reports (pdf_ocr env).2)
    ∧ (reports (pdf_ocr env).2).getLast? = some 1
    ∧ ∀ i, i < doc.pages.length →
        (pdf_ocr env).2.get? (2 * i) = some (OcrEvent.ocrPage i)
        ∧ (pdf_ocr env).2.get? (2 * i + 1)
            = some (OcrEvent.report i (((i : ℚ) + 1) / (doc.pages.length : ℚ))) := by
  have hpdf := pdf_ocr_ok env doc f hopen hocr
  have hrep : reports (pdf_ocr env).2
      = (List.range doc.pages.length).map
          (fun i : ℕ => ((i : ℚ) + 1) / (doc.pages.length : ℚ)) := by
    rw [hpdf]
    exact reports_flatMap _ _
  have hnpos : (0 : ℚ) < (doc.pages.length : ℚ) := by
    exact_mod_cast Nat.lt_of_lt_of_le Nat.zero_lt_one hn
  refine ⟨hrep, ?_, ?_, ?_⟩
  · rw [hrep]
    refine List.Pairwise.map _ ?_ (List.pairwise_lt_range _)
    intro a b hab
    rw [div_lt_div_iff_of_pos_right hnpos]
    exact_mod_cast Nat.succ_lt_succ hab
  · rw [hrep]
    obtain ⟨m, hm⟩ : ∃ m, doc.pages.length = m + 1 :=
      ⟨doc.pages.length - 1, by omega⟩
    rw [hm, List.range_succ, List.map_append]
    simp only [List.map_cons, List.map_nil]
    rw [List.getLast?_concat]
    congr 1
    rw [show ((m : ℚ) + 1) = ((m + 1 : ℕ) : ℚ) by push_cast; ring]
    exact div_self (by exact_mod_cast Nat.succ_ne_zero m)
  · intro i hi
    rw [hpdf]
    exact trace_get _ doc.pages.length i hi

/-- C5 witness: a two-page document with constant OCR output. -/
theorem C5_ocr_progress_witness :
    reports (pdf_ocr ⟨.ok ⟨[], ["p1", "p2"]⟩, fun _ => .ok "T"⟩).2
      = [(1 : ℚ) / 2, 1] := by
  have h := C5_ocr_progress ⟨.ok ⟨[], ["p1", "p2"]⟩, fun _ => .ok "T"⟩
      ⟨[], ["p1", "p2"]⟩ (fun _ => "T") rfl (by decide) (fun i => rfl)
  rw [h.1]
  norm_num [List.range_succ]

/-- C7: when every page's OCR succeeds, the full text of pdf_ocr is the
concatenation, in page order, of the delimiter header for 1-based page
number followed by that page's recognized text. -/
theorem C7_page_headers (env : OcrEnv) (doc : PdfDoc) (f : Nat → String)
    (hopen : env.openDoc = .ok doc) (hocr : ∀ i, env.pageOcr i = .ok (f i)) :
    (pdf_ocr env).1.1
      = String.join ((List.range doc.pages.length).map fun i =>
          "\n--- Page " ++ toString (i + 1) ++ " ---\n" ++ f i) := by
  rw [pdf_ocr_ok env doc f hopen hocr]

/-- C7 witness: a two-page document with per-page OCR output. -/
theorem C7_page_headers_witness :
    (pdf_ocr ⟨.ok ⟨[], ["p1", "p2"]⟩, fun i => .ok ("T" ++ toString i)⟩).1.1
      = "\n--- Page 1 ---\nT0\n--- Page 2 ---\nT1" := by
  have h := C7_page_headers ⟨.ok ⟨[], ["p1", "p2"]⟩, fun i => .ok ("T" ++ toString i)⟩
      ⟨[], ["p1", "p2"]⟩ (fun i => "T" ++ toString i) rfl (fun i => rfl)
  rw [h]
  rfl

/-- C8: on a byte stream both functions fully succeed on, the TOC text of
pdf_ocr equals the TOC text of pdf_to_text: the duplicated rendering
loops compute the same string. -/
theorem C8_toc_same (env : OcrEnv) (doc : PdfDoc) (f : Nat → String)
    (hopen : env.openDoc = .ok doc) (hocr : ∀ i, env.pageOcr i = .ok (f i)) :
    (pdf_ocr env).1.2 = (pdf_to_text env.openDoc).2 := by
  rw [pdf_ocr_ok env doc f hopen hocr, hopen]
  exact ocrTocText_eq doc.toc

/-- C8 witness: a one-page document with a one-entry TOC. -/
theorem C8_toc_same_witness :
    (pdf_ocr ⟨.ok ⟨[(1, "A", 2)], ["p"]⟩, fun _ => .ok "T"⟩).1.2
      = (pdf_to_text (.ok ⟨[(1, "A", 2)], ["p"]⟩)).2 :=
  C8_toc_same ⟨.ok ⟨[(1, "A", 2)], ["p"]⟩, fun _ => .ok "T"⟩
    ⟨[(1, "A", 2)], ["p"]⟩ (fun _ => "T") rfl (fun i => rfl)

/-- C10: on a successfully opened zero-page document, pdf_ocr returns the
empty full text with the rendered TOC text, performs no OCR action and
never invokes the progress sink, so the division by the page count is
never evaluated in any loop iteration. -/
theorem C10_zero_pages (env : OcrEnv) (doc : PdfDoc)
    (hopen : env.openDoc = .ok doc) (hpages : doc.pages = []) :
    (pdf_ocr env).1.1 = "" ∧ (pdf_ocr env).1.2 = ocrTocText doc.toc
    ∧ (pdf_ocr env).2 = [] ∧ reports (pdf_ocr env).2 = [] := by
  have h : pdf_ocr env = (("", ocrTocText doc.toc), []) := by
    unfold pdf_ocr
    rw [hopen]
    simp [hpages, ocrGo]
  rw [h]
  exact ⟨rfl, rfl, rfl, rfl⟩

/-- C10 witness: a zero-page document on which any OCR attempt would
fail; the result is still the empty text with the TOC, and no event. -/
theorem C10_zero_pages_witness :
    (pdf_ocr ⟨.ok ⟨[(1, "A", 2)], []⟩, fun _ => .error "never"⟩).1.1 = ""
    ∧ (pdf_ocr ⟨.ok ⟨[(1, "A", 2)], []⟩, fun _ => .error "never"⟩).2 = [] := by
  have h := C10_zero_pages ⟨.ok ⟨[(1, "A", 2)], []⟩, fun _ => .error "never"⟩
      ⟨[(1, "A", 2)], []⟩ rfl rfl
  exact ⟨h.1, h.2.2.1⟩

end App
